import Mathlib

/-!
Verification development for the "Partial Geometry Cache" of the plotplus
repository (`src/plotplus.py`, classes `MapSet`, `PartialShapelyFeature`,
`PartialNaturalEarthFeature`).

The embedding is shallow: the cache's pure logic is translated into Lean
functions over rational coordinates.  Geometries are opaque; the upstream
spatial predicate (cartopy/shapely `intersects`) is a parameter
`intersects : γ → Extent → Bool`, instantiated with a bounding-box overlap
test `boxOverlap` on concrete witnesses.  Effectful parts (pickle, file
handles) that live in the Python standard library rather than the repository
are modelled explicitly and documented as such.
-/

namespace PlotPlus

/-- The extent tuple stored by both feature classes:
`self.extent = georange[2:] + georange[:2]`, i.e.
`(lonMin, lonMax, latMin, latMax)`. -/
structure Extent where
  lonMin : ℚ
  lonMax : ℚ
  latMin : ℚ
  latMax : ℚ
deriving DecidableEq, Repr

/-- A georange as the callers pass it: `(latMin, latMax, lonMin, lonMax)`. -/
structure Georange where
  latMin : ℚ
  latMax : ℚ
  lonMin : ℚ
  lonMax : ℚ
deriving DecidableEq, Repr

/-- `self.extent = georange[2:] + georange[:2]` in both feature `__init__`s. -/
def extentOfGeorange (gr : Georange) : Extent :=
  ⟨gr.lonMin, gr.lonMax, gr.latMin, gr.latMax⟩

/-- First half-extent built by `make_partial` when the region straddles the
antimeridian: `extent1 = self.extent[0], 180., self.extent[2], self.extent[3]`. -/
def subExtent1 (e : Extent) : Extent :=
  ⟨e.lonMin, 180, e.latMin, e.latMax⟩

/-- Second half-extent built by `make_partial`:
`extent2 = -180., self.extent[1] - 360., self.extent[2], self.extent[3]`. -/
def subExtent2 (e : Extent) : Extent :=
  ⟨-180, e.lonMax - 360, e.latMin, e.latMax⟩

/-- The antimeridian test `self.extent[0] < 180 < self.extent[1]`. -/
def straddles (e : Extent) : Bool :=
  decide (e.lonMin < 180) && decide ((180 : ℚ) < e.lonMax)

/-- The geometry selection performed by `make_partial` in both
`PartialShapelyFeature` and `PartialNaturalEarthFeature` (the latter after
loading the full collection).  `intersects` is the upstream spatial predicate
used by the inherited `intersecting_geometries` (delegated, not
reimplemented); `geoms` is the full upstream collection in iteration order. -/
def makePartialGeoms {γ : Type} (intersects : γ → Extent → Bool)
    (geoms : List γ) (e : Extent) : List γ :=
  if straddles e then
    geoms.filter (fun g => intersects g (subExtent1 e)) ++
      geoms.filter (fun g => intersects g (subExtent2 e))
  else
    geoms.filter (fun g => intersects g e)

/-- Natural Earth category identifiers used by the repository. -/
inductive Category
  | physical
  | cultural
deriving DecidableEq, Repr

/-- Natural Earth dataset names used by the repository. -/
inductive NEName
  | coastline
  | admin0BoundaryLinesLand
  | land
  | ocean
deriving DecidableEq, Repr

/-- Natural Earth resolution tags (`'10m'`, `'50m'`, `'110m'`). -/
inductive Scale
  | s10m
  | s50m
  | s110m
deriving DecidableEq, Repr

/-- A `GeometrySource`: the (category, name, resolution) key identifying an
upstream collection, as passed to `PartialNaturalEarthFeature.__init__`. -/
structure GeometrySource where
  category : Category
  name : NEName
  scale : Scale
deriving DecidableEq, Repr

/-- The observable state of a constructed partial feature: its source key,
its stored extent and the materialized `self._geoms` sequence. -/
structure PartialFeature (γ : Type) where
  source : GeometrySource
  extent : Extent
  geoms : List γ
deriving DecidableEq, Repr

/-- Construction of a `PartialNaturalEarthFeature`: `__init__` stores the
extent and calls `make_partial`, which loads the full collection for the
source (`provider src`, modelling `ciosr.Reader(path).geometries()`) and
filters it.  The constructor performs no region validation. -/
def buildNE {γ : Type} (intersects : γ → Extent → Bool)
    (provider : GeometrySource → List γ) (src : GeometrySource)
    (gr : Georange) : PartialFeature γ :=
  let e := extentOfGeorange gr
  { source := src, extent := e,
    geoms := makePartialGeoms intersects (provider src) e }

/-- The overridden `intersecting_geometries(self, extent)` of both partial
feature classes: `return self.geometries()`, which yields the stored
`self._geoms`; the `extent` argument is never consulted. -/
def intersectingGeometries {γ : Type} (f : PartialFeature γ)
    (requestedExtent : Extent) : List γ :=
  f.geoms

/-- A concrete geometry model for witnesses: a geometry identified by its
bounding box. -/
structure Box where
  lonMin : ℚ
  lonMax : ℚ
  latMin : ℚ
  latMax : ℚ
deriving DecidableEq, Repr

/-- The upstream extent-overlap predicate instantiated for `Box` geometries:
closed-interval overlap in both axes. -/
def boxOverlap (g : Box) (e : Extent) : Bool :=
  decide (g.lonMin ≤ e.lonMax) && decide (e.lonMin ≤ g.lonMax) &&
    decide (g.latMin ≤ e.latMax) && decide (e.latMin ≤ g.latMax)

/-- The `MapSet` object (`MapSet.__init__`): every feature slot defaults to
`None`.  The projection (`proj`, a CRS or shorthand such as `'P'`) and
`proj_params` are opaque plotting state, carried as written. -/
structure MapSet (γ : Type) where
  proj : Option Char := none
  georange : Option Georange := none
  scale : Option Scale := none
  coastline : Option (PartialFeature γ) := none
  country : Option (PartialFeature γ) := none
  land : Option (PartialFeature γ) := none
  ocean : Option (PartialFeature γ) := none
  province : Option (PartialFeature γ) := none
  city : Option (PartialFeature γ) := none
  county : Option (PartialFeature γ) := none
  projParams : Option Unit := none
deriving DecidableEq, Repr

/-- `MapSet.from_natural_earth`: builds the instance with only
`proj, georange, scale, proj_params` set, then fills `coastline`, `country`,
`land`, `ocean` according to the four boolean flags; `province`, `city`,
`county` are never assigned. -/
def fromNaturalEarth {γ : Type} (intersects : γ → Extent → Bool)
    (provider : GeometrySource → List γ) (gr : Georange) (scale : Scale)
    (proj : Char) (coastline country land ocean : Bool)
    (projParams : Option Unit) : MapSet γ :=
  let ins : MapSet γ :=
    { proj := some proj, georange := some gr, scale := some scale,
      projParams := projParams }
  let ins := if coastline then
    { ins with coastline := some (buildNE intersects provider
        ⟨Category.physical, NEName.coastline, scale⟩ gr) } else ins
  let ins := if country then
    { ins with country := some (buildNE intersects provider
        ⟨Category.cultural, NEName.admin0BoundaryLinesLand, scale⟩ gr) } else ins
  let ins := if land then
    { ins with land := some (buildNE intersects provider
        ⟨Category.physical, NEName.land, scale⟩ gr) } else ins
  let ins := if ocean then
    { ins with ocean := some (buildNE intersects provider
        ⟨Category.physical, NEName.ocean, scale⟩ gr) } else ins
  ins

/-- The error taxonomy the specification assigns to `build`. -/
inductive RegionError
  | invalidRegion
deriving DecidableEq, Repr

/-- `build` with its error channel made explicit.  The Python constructor
contains no validation and no `raise` on this path, so every input reaches
the filter and the result is always `.ok`. -/
def buildNEChecked {γ : Type} (intersects : γ → Extent → Bool)
    (provider : GeometrySource → List γ) (src : GeometrySource)
    (gr : Georange) : Except RegionError (PartialFeature γ) :=
  Except.ok (buildNE intersects provider src gr)

/-- Errors the specification assigns to `load`. -/
inductive LoadError
  | notFound
  | corruptCache
deriving DecidableEq, Repr

/-- Modelled from the spec: the byte content of the file at the target path
as observed by a later `load`; `none` means the path does not exist.  The
Python code in the repository only ever touches the file through
`open(filename, 'wb')` / `open(filename, 'rb')` and pickle, whose semantics
are standard-library behaviour, so they are modelled here explicitly. -/
abbrev FileContent : Type := Option (List Int)

/-- Modelled from the spec: `MapSet.save` opens the target path with
`open(filename, 'wb')` — which truncates any existing file immediately —
and then `pickle.dump` writes the serialized stream sequentially as a list
of chunks.  `stepsCompleted` is how many chunks were written before the dump
stopped (normally `chunks.length`; fewer when a write failure interrupts
it).  The `with` block closes the handle on every exit path, so the
observable outcome is exactly the bytes written so far. -/
def saveFileOutcome (previous : FileContent) (chunks : List (List Int))
    (stepsCompleted : Nat) : FileContent :=
  some ((chunks.take stepsCompleted).flatten)

/-- Modelled from the spec: `MapSet.load` opens the path for reading —
raising the not-found error when the path does not exist — and then
`pickle.load` decodes the byte stream, raising the corrupt-stream error when
the bytes do not form a valid serialization (`decode` returns `none`). -/
def loadFile {γ : Type} (decode : List Int → Option (MapSet γ))
    (file : FileContent) : Except LoadError (MapSet γ) :=
  match file with
  | none => Except.error LoadError.notFound
  | some bs =>
    match decode bs with
    | none => Except.error LoadError.corruptCache
    | some m => Except.ok m

/-! ### Serialization codec

Modelled from the spec: `pickle.dump` / `pickle.load` serialize a `MapSet`
(with its features' regions, sources and geometry sequences) to an opaque
byte stream whose format is implementation-defined as long as the
round-trip law holds (spec §6).  The stream is modelled as a `List Int`;
each decoder consumes a prefix and returns the remaining stream. -/

def decInt : List Int → Option (Int × List Int)
  | [] => none
  | x :: rest => some (x, rest)

def encRat (q : ℚ) : List Int := [q.num, (q.den : Int)]

def decRat (s : List Int) : Option (ℚ × List Int) := do
  let (n, s) ← decInt s
  let (d, s) ← decInt s
  if 0 < d then some (mkRat n d.toNat, s) else none

def encCategory : Category → List Int
  | Category.physical => [0]
  | Category.cultural => [1]

def decCategory (s : List Int) : Option (Category × List Int) := do
  let (t, s) ← decInt s
  match t with
  | 0 => some (Category.physical, s)
  | 1 => some (Category.cultural, s)
  | _ => none

def encNEName : NEName → List Int
  | NEName.coastline => [0]
  | NEName.admin0BoundaryLinesLand => [1]
  | NEName.land => [2]
  | NEName.ocean => [3]

def decNEName (s : List Int) : Option (NEName × List Int) := do
  let (t, s) ← decInt s
  match t with
  | 0 => some (NEName.coastline, s)
  | 1 => some (NEName.admin0BoundaryLinesLand, s)
  | 2 => some (NEName.land, s)
  | 3 => some (NEName.ocean, s)
  | _ => none

def encScale : Scale → List Int
  | Scale.s10m => [0]
  | Scale.s50m => [1]
  | Scale.s110m => [2]

def decScale (s : List Int) : Option (Scale × List Int) := do
  let (t, s) ← decInt s
  match t with
  | 0 => some (Scale.s10m, s)
  | 1 => some (Scale.s50m, s)
  | 2 => some (Scale.s110m, s)
  | _ => none

def encExtent (e : Extent) : List Int :=
  encRat e.lonMin ++ encRat e.lonMax ++ encRat e.latMin ++ encRat e.latMax

def decExtent (s : List Int) : Option (Extent × List Int) := do
  let (a, s) ← decRat s
  let (b, s) ← decRat s
  let (c, s) ← decRat s
  let (d, s) ← decRat s
  some (⟨a, b, c, d⟩, s)

def encGeorange (gr : Georange) : List Int :=
  encRat gr.latMin ++ encRat gr.latMax ++ encRat gr.lonMin ++ encRat gr.lonMax

def decGeorange (s : List Int) : Option (Georange × List Int) := do
  let (a, s) ← decRat s
  let (b, s) ← decRat s
  let (c, s) ← decRat s
  let (d, s) ← decRat s
  some (⟨a, b, c, d⟩, s)

def encBox (b : Box) : List Int :=
  encRat b.lonMin ++ encRat b.lonMax ++ encRat b.latMin ++ encRat b.latMax

def decBox (s : List Int) : Option (Box × List Int) := do
  let (a, s) ← decRat s
  let (b, s) ← decRat s
  let (c, s) ← decRat s
  let (d, s) ← decRat s
  some (⟨a, b, c, d⟩, s)

def encSource (src : GeometrySource) : List Int :=
  encCategory src.category ++ encNEName src.name ++ encScale src.scale

def decSource (s : List Int) : Option (GeometrySource × List Int) := do
  let (c, s) ← decCategory s
  let (n, s) ← decNEName s
  let (sc, s) ← decScale s
  some (⟨c, n, sc⟩, s)

def encBoxes : List Box → List Int
  | [] => []
  | b :: bs => encBox b ++ encBoxes bs

def decBoxes : Nat → List Int → Option (List Box × List Int)
  | 0, s => some ([], s)
  | n + 1, s => do
    let (b, s) ← decBox s
    let (bs, s) ← decBoxes n s
    some (b :: bs, s)

def encBoxList (xs : List Box) : List Int :=
  (xs.length : Int) :: encBoxes xs

def decBoxList (s : List Int) : Option (List Box × List Int) := do
  let (n, s) ← decInt s
  if 0 ≤ n then decBoxes n.toNat s else none

def encFeature (f : PartialFeature Box) : List Int :=
  encSource f.source ++ encExtent f.extent ++ encBoxList f.geoms

def decFeature (s : List Int) : Option (PartialFeature Box × List Int) := do
  let (src, s) ← decSource s
  let (e, s) ← decExtent s
  let (gs, s) ← decBoxList s
  some (⟨src, e, gs⟩, s)

def encOpt {α : Type} (enc : α → List Int) : Option α → List Int
  | none => [0]
  | some a => 1 :: enc a

def decOpt {α : Type} (dec : List Int → Option (α × List Int))
    (s : List Int) : Option (Option α × List Int) := do
  let (t, s) ← decInt s
  match t with
  | 0 => some (none, s)
  | 1 => do
    let (a, s) ← dec s
    some (some a, s)
  | _ => none

def encChar (c : Char) : List Int := [(c.toNat : Int)]

def decChar (s : List Int) : Option (Char × List Int) := do
  let (n, s) ← decInt s
  if 0 ≤ n then some (Char.ofNat n.toNat, s) else none

def encUnit (_ : Unit) : List Int := []

def decUnit (s : List Int) : Option (Unit × List Int) :=
  some ((), s)

/-- The serialized byte stream `pickle.dump(self, f)` writes for a `MapSet`. -/
def encMapSet (m : MapSet Box) : List Int :=
  encOpt encChar m.proj ++ encOpt encGeorange m.georange ++
    encOpt encScale m.scale ++ encOpt encFeature m.coastline ++
    encOpt encFeature m.country ++ encOpt encFeature m.land ++
    encOpt encFeature m.ocean ++ encOpt encFeature m.province ++
    encOpt encFeature m.city ++ encOpt encFeature m.county ++
    encOpt encUnit m.projParams

/-- The stream decoder `pickle.load` applies; `none` models the
unpickling error raised on a malformed stream.  Like `pickle.load`, it
consumes the object's serialization as a prefix and ignores any trailing
bytes. -/
def decMapSet (s : List Int) : Option (MapSet Box) := do
  let (proj, s) ← decOpt decChar s
  let (gr, s) ← decOpt decGeorange s
  let (sc, s) ← decOpt decScale s
  let (co, s) ← decOpt decFeature s
  let (cn, s) ← decOpt decFeature s
  let (la, s) ← decOpt decFeature s
  let (oc, s) ← decOpt decFeature s
  let (pr, s) ← decOpt decFeature s
  let (ci, s) ← decOpt decFeature s
  let (cy, s) ← decOpt decFeature s
  let (pp, _) ← decOpt decUnit s
  some ⟨proj, gr, sc, co, cn, la, oc, pr, ci, cy, pp⟩

/-- `MapSet.save` followed by `MapSet.load` on the same path, with the file
system behaving normally: `save` completes all its writes, so the file holds
exactly the pickle stream, and `load` reads and decodes those bytes. -/
def saveThenLoad (m : MapSet Box) : Except LoadError (MapSet Box) :=
  loadFile decMapSet (saveFileOutcome none [encMapSet m] 1)

/-- `make_partial` only ever reads the upstream collection (materializing it
with `tuple(...)` and filtering with `list(...)` copies); this pairs the
post-call state of the upstream collection with the built feature, making
the absence of mutation explicit. -/
def buildRun {γ : Type} (intersects : γ → Extent → Bool)
    (provider : GeometrySource → List γ) (src : GeometrySource)
    (gr : Georange) : (GeometrySource → List γ) × PartialFeature γ :=
  (provider, buildNE intersects provider src gr)

/-! ### Concrete instances used by witnesses and counterexamples -/

/-- The spec's antimeridian example region:
`latMin = 0, latMax = 30, lonMin = 170, lonMax = 200`. -/
def grEx : Georange := ⟨0, 30, 170, 200⟩

/-- The spec's China-coast example region:
`latMin = 15, latMax = 35, lonMin = 110, lonMax = 135`. -/
def grCN : Georange := ⟨15, 35, 110, 135⟩

/-- A geometry whose extent overlaps both halves of the split example
region `grEx`. -/
def wideBox : Box := ⟨-179, 179, 0, 10⟩

/-- A geometry inside the China-coast region. -/
def boxCN : Box := ⟨112, 120, 18, 30⟩

/-- A geometry entirely outside the China-coast region. -/
def boxFar : Box := ⟨-60, -50, -40, -30⟩

/-- A sample source key: physical / coastline at 50m resolution. -/
def src0 : GeometrySource := ⟨Category.physical, NEName.coastline, Scale.s50m⟩

/-- A one-geometry upstream provider. -/
def provider1 : GeometrySource → List Box := fun _ => [wideBox]

/-- A two-geometry upstream provider. -/
def provider2 : GeometrySource → List Box := fun _ => [boxCN, boxFar]

/-! ### Codec round-trip lemmas -/

theorem decRat_enc (q : ℚ) (s : List Int) : decRat (encRat q ++ s) = some (q, s) := by
  have hd : (0 : Int) < (q.den : Int) := by exact_mod_cast q.den_pos
  simp [decRat, encRat, decInt, hd, Rat.mkRat_self]

theorem decCategory_enc (c : Category) (s : List Int) :
    decCategory (encCategory c ++ s) = some (c, s) := by
  cases c <;> simp [decCategory, encCategory, decInt]

theorem decNEName_enc (n : NEName) (s : List Int) :
    decNEName (encNEName n ++ s) = some (n, s) := by
  cases n <;> simp [decNEName, encNEName, decInt]

theorem decScale_enc (sc : Scale) (s : List Int) :
    decScale (encScale sc ++ s) = some (sc, s) := by
  cases sc <;> simp [decScale, encScale, decInt]

theorem decExtent_enc (e : Extent) (s : List Int) :
    decExtent (encExtent e ++ s) = some (e, s) := by
  simp [decExtent, encExtent, decRat_enc]

theorem decGeorange_enc (gr : Georange) (s : List Int) :
    decGeorange (encGeorange gr ++ s) = some (gr, s) := by
  simp [decGeorange, encGeorange, decRat_enc]

theorem decBox_enc (b : Box) (s : List Int) :
    decBox (encBox b ++ s) = some (b, s) := by
  simp [decBox, encBox, decRat_enc]

theorem decSource_enc (src : GeometrySource) (s : List Int) :
    decSource (encSource src ++ s) = some (src, s) := by
  simp [decSource, encSource, decCategory_enc, decNEName_enc, decScale_enc]

theorem decBoxes_enc (xs : List Box) (s : List Int) :
    decBoxes xs.length (encBoxes xs ++ s) = some (xs, s) := by
  induction xs generalizing s with
  | nil => simp [decBoxes, encBoxes]
  | cons b bs ih => simp [decBoxes, encBoxes, decBox_enc, ih]

theorem decBoxList_enc (xs : List Box) (s : List Int) :
    decBoxList (encBoxList xs ++ s) = some (xs, s) := by
  simp [decBoxList, encBoxList, decInt, decBoxes_enc]

theorem decFeature_enc (f : PartialFeature Box) (s : List Int) :
    decFeature (encFeature f ++ s) = some (f, s) := by
  simp [decFeature, encFeature, decSource_enc, decExtent_enc, decBoxList_enc]

theorem decChar_enc (c : Char) (s : List Int) :
    decChar (encChar c ++ s) = some (c, s) := by
  simp [decChar, encChar, decInt]

theorem decUnit_enc (u : Unit) (s : List Int) :
    decUnit (encUnit u ++ s) = some (u, s) := by
  simp [decUnit, encUnit]

theorem decOpt_enc {α : Type} (enc : α → List Int)
    (dec : List Int → Option (α × List Int))
    (h : ∀ (a : α) (s : List Int), dec (enc a ++ s) = some (a, s)) :
    ∀ (o : Option α) (s : List Int),
      decOpt dec (encOpt enc o ++ s) = some (o, s) := by
  intro o s
  cases o with
  | none => simp [decOpt, encOpt, decInt]
  | some a => simp [decOpt, encOpt, decInt, h]

set_option maxHeartbeats 2000000 in
theorem decMapSet_enc (m : MapSet Box) (rest : List Int) :
    decMapSet (encMapSet m ++ rest) = some m := by
  simp [decMapSet, encMapSet,
    decOpt_enc encChar decChar decChar_enc,
    decOpt_enc encGeorange decGeorange decGeorange_enc,
    decOpt_enc encScale decScale decScale_enc,
    decOpt_enc encFeature decFeature decFeature_enc,
    decOpt_enc encUnit decUnit decUnit_enc]

/-! ### Claim theorems -/

/-- C1: for a region straddling the antimeridian (`lonMin < 180 < lonMax`),
`make_partial` produces exactly the concatenation of the matches against
`[lonMin, 180]` and then against `[-180, lonMax - 360]` (same latitude
bounds), with no de-duplication: a geometry of the collection matching both
sub-extents occurs at least twice in the output sequence. -/
theorem antimeridian_split_concat {γ : Type} [DecidableEq γ]
    (intersects : γ → Extent → Bool) (geoms : List γ) (e : Extent)
    (h1 : e.lonMin < 180) (h2 : (180 : ℚ) < e.lonMax) :
    makePartialGeoms intersects geoms e =
      geoms.filter (fun g => intersects g (subExtent1 e)) ++
        geoms.filter (fun g => intersects g (subExtent2 e)) ∧
    ∀ g : γ, geoms.count g = 1 → intersects g (subExtent1 e) = true →
      intersects g (subExtent2 e) = true →
      (makePartialGeoms intersects geoms e).count g = 2 := by
  have hs : straddles e = true := by
    simp [straddles]
    exact ⟨h1, h2⟩
  refine ⟨by simp [makePartialGeoms, hs], ?_⟩
  intro g hcount hi1 hi2
  simp only [makePartialGeoms, hs, if_true, List.count_append]
  rw [List.count_filter (by simpa using hi1),
    List.count_filter (by simpa using hi2), hcount]

/-- Witness for C1 at the spec's example: region
`latMin = 0, latMax = 30, lonMin = 170, lonMax = 200` and a geometry whose
extent overlaps both sub-extents. -/
theorem antimeridian_split_concat_witness :
    ((extentOfGeorange grEx).lonMin < 180 ∧
      (180 : ℚ) < (extentOfGeorange grEx).lonMax) ∧
    (makePartialGeoms boxOverlap [wideBox] (extentOfGeorange grEx) =
      [wideBox].filter (fun g => boxOverlap g (subExtent1 (extentOfGeorange grEx))) ++
        [wideBox].filter (fun g => boxOverlap g (subExtent2 (extentOfGeorange grEx))) ∧
    ∀ g : Box, [wideBox].count g = 1 →
      boxOverlap g (subExtent1 (extentOfGeorange grEx)) = true →
      boxOverlap g (subExtent2 (extentOfGeorange grEx)) = true →
      (makePartialGeoms boxOverlap [wideBox] (extentOfGeorange grEx)).count g = 2) :=
  ⟨⟨by decide, by decide⟩,
    antimeridian_split_concat boxOverlap [wideBox] (extentOfGeorange grEx)
      (by decide) (by decide)⟩

/-- C2: for a valid region that does not straddle the antimeridian, `build`
runs a single filter pass over the upstream collection: the stored sequence
is exactly the geometries the upstream predicate accepts against the
region's extent, in upstream iteration order (a sublist of the collection),
and nothing the predicate rejects appears. -/
theorem single_pass_no_straddle {γ : Type} (intersects : γ → Extent → Bool)
    (provider : GeometrySource → List γ) (src : GeometrySource)
    (gr : Georange) (hv1 : gr.latMin < gr.latMax) (hv2 : gr.lonMin < gr.lonMax)
    (hns : straddles (extentOfGeorange gr) = false) :
    (buildNE intersects provider src gr).geoms =
      (provider src).filter (fun g => intersects g (extentOfGeorange gr)) ∧
    (buildNE intersects provider src gr).geoms.Sublist (provider src) ∧
    (∀ g ∈ (buildNE intersects provider src gr).geoms,
      intersects g (extentOfGeorange gr) = true) ∧
    (∀ g ∈ provider src, intersects g (extentOfGeorange gr) = false →
      g ∉ (buildNE intersects provider src gr).geoms) := by
  have hb : (buildNE intersects provider src gr).geoms =
      (provider src).filter (fun g => intersects g (extentOfGeorange gr)) := by
    simp [buildNE, makePartialGeoms, hns]
  refine ⟨hb, ?_, ?_, ?_⟩
  · rw [hb]; exact List.filter_sublist _
  · intro g hg
    rw [hb] at hg
    exact (List.mem_filter.mp hg).2
  · intro g _ hrej hmem
    rw [hb] at hmem
    have := (List.mem_filter.mp hmem).2
    rw [hrej] at this
    cases this

/-- Witness for C2 at the spec's China-coast region with one inside and one
outside geometry. -/
theorem single_pass_no_straddle_witness :
    (grCN.latMin < grCN.latMax ∧ grCN.lonMin < grCN.lonMax ∧
      straddles (extentOfGeorange grCN) = false) ∧
    ((buildNE boxOverlap provider2 src0 grCN).geoms =
      (provider2 src0).filter (fun g => boxOverlap g (extentOfGeorange grCN)) ∧
    (buildNE boxOverlap provider2 src0 grCN).geoms.Sublist (provider2 src0) ∧
    (∀ g ∈ (buildNE boxOverlap provider2 src0 grCN).geoms,
      boxOverlap g (extentOfGeorange grCN) = true) ∧
    (∀ g ∈ provider2 src0, boxOverlap g (extentOfGeorange grCN) = false →
      g ∉ (buildNE boxOverlap provider2 src0 grCN).geoms)) :=
  ⟨⟨by decide, by decide, by decide⟩,
    single_pass_no_straddle boxOverlap provider2 src0 grCN
      (by decide) (by decide) (by decide)⟩

/-- C3: `load(save(f))` reconstructs the saved `MapSet` exactly — in
particular the same georange, the same source and the same geometry sequence
in the same order for every cached feature slot. -/
theorem load_save_roundtrip (m : MapSet Box) :
    saveThenLoad m = Except.ok m := by
  have h := decMapSet_enc m []
  rw [List.append_nil] at h
  simp [saveThenLoad, saveFileOutcome, loadFile, h]

/-- C4 counterexample: at the spec's own antimeridian example (region
`latMin 0, latMax 30, lonMin 170, lonMax 200`, upstream collection holding a
single geometry whose extent overlaps both half-extents), the sequence built
by `make_partial` contains that geometry twice — it is not duplicate-free. -/
theorem build_nodup_counterexample :
    ¬ (buildNE boxOverlap provider1 src0 grEx).geoms.Nodup := by
  have h : (buildNE boxOverlap provider1 src0 grEx).geoms =
      [wideBox, wideBox] := by
    norm_num [buildNE, makePartialGeoms, straddles, extentOfGeorange, grEx,
      provider1, src0, subExtent1, subExtent2, boxOverlap, wideBox,
      List.filter]
  rw [h]
  decide

/-- C4 amended: every geometry stored by `build` is one the upstream
predicate accepts against the effective region — the region's extent itself
in the ordinary case, or one of the two antimeridian sub-extents in the
straddling case; however, the sequence may contain duplicates when a
geometry matches both sub-extents. -/
theorem build_geoms_intersect_region {γ : Type}
    (intersects : γ → Extent → Bool) (provider : GeometrySource → List γ)
    (src : GeometrySource) (gr : Georange) (g : γ)
    (hg : g ∈ (buildNE intersects provider src gr).geoms) :
    (straddles (extentOfGeorange gr) = true →
      intersects g (subExtent1 (extentOfGeorange gr)) = true ∨
        intersects g (subExtent2 (extentOfGeorange gr)) = true) ∧
    (straddles (extentOfGeorange gr) = false →
      intersects g (extentOfGeorange gr) = true) := by
  constructor
  · intro hs
    simp only [buildNE, makePartialGeoms, hs, if_true] at hg
    rcases List.mem_append.mp hg with hm | hm
    · exact Or.inl (List.mem_filter.mp hm).2
    · exact Or.inr (List.mem_filter.mp hm).2
  · intro hs
    simp only [buildNE, makePartialGeoms, hs] at hg
    simp at hg
    exact hg.2

/-- Witness for the amended C4: the wide geometry stored for the
antimeridian example region matches the first sub-extent. -/
theorem build_geoms_intersect_region_witness :
    wideBox ∈ (buildNE boxOverlap provider1 src0 grEx).geoms ∧
    ((straddles (extentOfGeorange grEx) = true →
      boxOverlap wideBox (subExtent1 (extentOfGeorange grEx)) = true ∨
        boxOverlap wideBox (subExtent2 (extentOfGeorange grEx)) = true) ∧
    (straddles (extentOfGeorange grEx) = false →
      boxOverlap wideBox (extentOfGeorange grEx) = true)) :=
  ⟨by decide,
    build_geoms_intersect_region boxOverlap provider1 src0 grEx wideBox
      (by decide)⟩

/-- C5 counterexample: with the inverted region `latMin = 10, latMax = 5`
(and `lonMin = 100, lonMax = 120`), `build` does not fail with an
invalid-region error — the constructors contain no validation. -/
theorem invalid_region_counterexample :
    buildNEChecked boxOverlap provider1 src0 ⟨10, 5, 100, 120⟩ ≠
      Except.error RegionError.invalidRegion := by
  simp [buildNEChecked]

/-- C5 amended: `build` performs no region validation: for every malformed
region (`latMax ≤ latMin` or `lonMax ≤ lonMin`) it still returns a feature
— the one obtained by running the filter against the malformed extent —
rather than an invalid-region error. -/
theorem build_no_region_validation {γ : Type}
    (intersects : γ → Extent → Bool) (provider : GeometrySource → List γ)
    (src : GeometrySource) (gr : Georange)
    (hmal : gr.latMax ≤ gr.latMin ∨ gr.lonMax ≤ gr.lonMin) :
    buildNEChecked intersects provider src gr =
      Except.ok (buildNE intersects provider src gr) := rfl

/-- Witness for the amended C5 at the inverted region
`latMin = 10, latMax = 5`. -/
theorem build_no_region_validation_witness :
    ((10 : ℚ) ≥ (5 : ℚ) ∨ (100 : ℚ) ≥ (120 : ℚ)) ∧
    buildNEChecked boxOverlap provider1 src0 ⟨10, 5, 100, 120⟩ =
      Except.ok (buildNE boxOverlap provider1 src0 ⟨10, 5, 100, 120⟩) :=
  ⟨by decide,
    build_no_region_validation boxOverlap provider1 src0 ⟨10, 5, 100, 120⟩
      (Or.inl (by decide))⟩

/-- C6 counterexample: `save` opens the target with `open(filename, 'wb')`
and writes the pickle stream in place; if the dump stops after the first of
two chunks, the file holds `[1]` — neither absent, nor the complete
previous content `[9]`, nor the complete new content `[1, 2]` — so a
half-written file is observable and no atomic-publish mechanism exists. -/
theorem save_not_atomic_counterexample :
    saveFileOutcome (some [9]) [[1], [2]] 1 ≠ none ∧
    saveFileOutcome (some [9]) [[1], [2]] 1 ≠ some [9] ∧
    saveFileOutcome (some [9]) [[1], [2]] 1 ≠
      some (List.flatten [[1], [2]]) := by
  refine ⟨?_, ?_, ?_⟩ <;> decide

/-- C6 amended: `save` truncates the target immediately and writes the new
stream sequentially, releasing the handle on every exit path; whatever the
interruption point, the observable file content is some prefix of the new
serialized content (the previous content is gone; a partial write is
observable to a later `load`). -/
theorem save_outcome_prefix (previous : FileContent)
    (chunks : List (List Int)) (k : Nat) :
    ∃ l, saveFileOutcome previous chunks k = some l ∧
      List.IsPrefix l chunks.flatten := by
  refine ⟨(chunks.take k).flatten, rfl, (chunks.drop k).flatten, ?_⟩
  rw [← List.flatten_append, List.take_append_drop]

/-- C7: `build` is deterministic — identical `(source, region)` inputs over
the same upstream collection yield identical output features — and the
upstream collection is left unchanged by a build. -/
theorem build_deterministic_pure {γ : Type} (intersects : γ → Extent → Bool)
    (provider provider2 : GeometrySource → List γ)
    (src src2 : GeometrySource) (gr gr2 : Georange)
    (hp : provider2 = provider) (hs : src2 = src) (hg : gr2 = gr) :
    buildNE intersects provider2 src2 gr2 =
      buildNE intersects provider src gr ∧
    (buildRun intersects provider src gr).1 = provider := by
  subst hp hs hg
  exact ⟨rfl, rfl⟩

/-- Witness for C7: two builds of the coastline source over the
antimeridian example region coincide, and the upstream collection is
unchanged. -/
theorem build_deterministic_pure_witness :
    (provider1 = provider1 ∧ src0 = src0 ∧ grEx = grEx) ∧
    (buildNE boxOverlap provider1 src0 grEx =
      buildNE boxOverlap provider1 src0 grEx ∧
    (buildRun boxOverlap provider1 src0 grEx).1 = provider1) :=
  ⟨⟨rfl, rfl, rfl⟩,
    build_deterministic_pure boxOverlap provider1 provider1 src0 src0
      grEx grEx rfl rfl rfl⟩

/-- C8: `load` fails with the not-found error when the path has no file,
fails with the corrupt-cache error when the bytes do not decode, and
returns a feature only when the file exists and its bytes decode. -/
theorem load_error_cases {γ : Type} (decode : List Int → Option (MapSet γ))
    (file : FileContent) :
    (file = none → loadFile decode file = Except.error LoadError.notFound) ∧
    (∀ bs, file = some bs → decode bs = none →
      loadFile decode file = Except.error LoadError.corruptCache) ∧
    (∀ m, loadFile decode file = Except.ok m →
      ∃ bs, file = some bs ∧ decode bs = some m) := by
  refine ⟨?_, ?_, ?_⟩
  · intro h
    rw [h]
    rfl
  · intro bs hf hd
    rw [hf]
    simp [loadFile, hd]
  · intro m hm
    cases file with
    | none => simp [loadFile] at hm
    | some bs =>
      refine ⟨bs, rfl, ?_⟩
      cases hd : decode bs with
      | none => simp [loadFile, hd] at hm
      | some m2 =>
        simp [loadFile, hd] at hm
        rw [hm]

/-- Witness for C8: a missing file yields the not-found error; a garbage
stream (`[5]` is no valid pickle of a `MapSet`) yields the corrupt-cache
error. -/
theorem load_error_cases_witness :
    loadFile decMapSet none = Except.error LoadError.notFound ∧
    loadFile decMapSet (some [5]) = Except.error LoadError.corruptCache :=
  ⟨(load_error_cases decMapSet none).1 rfl,
    (load_error_cases decMapSet (some [5])).2.1 [5] rfl rfl⟩

/-- C9: the overridden `intersecting_geometries` ignores its extent
argument: any two calls return the same sequence, namely the
region-filtered sequence computed by `make_partial` at construction time,
with no fresh intersection scan. -/
theorem intersecting_geometries_ignores_extent {γ : Type}
    (intersects : γ → Extent → Bool) (provider : GeometrySource → List γ)
    (src : GeometrySource) (gr : Georange) (e1 e2 : Extent) :
    intersectingGeometries (buildNE intersects provider src gr) e1 =
      intersectingGeometries (buildNE intersects provider src gr) e2 ∧
    intersectingGeometries (buildNE intersects provider src gr) e1 =
      makePartialGeoms intersects (provider src) (extentOfGeorange gr) :=
  ⟨rfl, rfl⟩

/-- C10: `from_natural_earth` with default flags fills `coastline`
(physical/coastline) and `country` (cultural/admin_0_boundary_lines_land)
with partial features built for the given georange at the given scale,
leaves `land` and `ocean` as `None` unless their flags are set, and leaves
`province`, `city`, `county` as `None` for every flag combination. -/
theorem from_natural_earth_defaults {γ : Type}
    (intersects : γ → Extent → Bool) (provider : GeometrySource → List γ)
    (gr : Georange) (scale : Scale) (proj : Char) (projParams : Option Unit) :
    (fromNaturalEarth intersects provider gr scale proj true true false false
        projParams).coastline =
      some (buildNE intersects provider
        ⟨Category.physical, NEName.coastline, scale⟩ gr) ∧
    (fromNaturalEarth intersects provider gr scale proj true true false false
        projParams).country =
      some (buildNE intersects provider
        ⟨Category.cultural, NEName.admin0BoundaryLinesLand, scale⟩ gr) ∧
    (fromNaturalEarth intersects provider gr scale proj true true false false
        projParams).land = none ∧
    (fromNaturalEarth intersects provider gr scale proj true true false false
        projParams).ocean = none ∧
    (∀ co cn : Bool,
      (fromNaturalEarth intersects provider gr scale proj co cn true true
          projParams).land =
        some (buildNE intersects provider
          ⟨Category.physical, NEName.land, scale⟩ gr) ∧
      (fromNaturalEarth intersects provider gr scale proj co cn true true
          projParams).ocean =
        some (buildNE intersects provider
          ⟨Category.physical, NEName.ocean, scale⟩ gr)) ∧
    (∀ co cn la oc : Bool,
      (fromNaturalEarth intersects provider gr scale proj co cn la oc
          projParams).province = none ∧
      (fromNaturalEarth intersects provider gr scale proj co cn la oc
          projParams).city = none ∧
      (fromNaturalEarth intersects provider gr scale proj co cn la oc
          projParams).county = none) := by
  refine ⟨rfl, rfl, rfl, rfl, ?_, ?_⟩
  · intro co cn
    cases co <;> cases cn <;> exact ⟨rfl, rfl⟩
  · intro co cn la oc
    cases co <;> cases cn <;> cases la <;> cases oc <;>
      exact ⟨rfl, rfl, rfl⟩

end PlotPlus
